import Mathlib

/-!
Verification development for the pod-doctor diagnostic assistant
(`src/app.py`).  The Python functions `list_namespaces`, `list_pods`,
`get_pod_info`, `create_prompt`, `call_llm`, `namespace_change` and
`respond` are shallowly embedded as pure Lean functions.  External
collaborators (the Kubernetes client, the OpenAI client, the Gradio
widget layer) are modelled as explicit parameters; every cluster /
completion call a function performs is additionally returned as an
explicit trace so that call-counting claims can be stated.
-/

namespace PodDoctor

/-- A Python value as it appears inside a pod's `to_dict()` mapping:
`None`, a scalar rendered as a string, or a nested dict. -/
inductive Value where
  | vnull : Value
  | vstr : String → Value
  | vmap : List (String × Value) → Value
deriving Repr

/-- Python dict assignment `d[k] = v` on a dict represented as an ordered
association list: an existing key is updated in place, a missing key is
appended at the end. -/
def dictSet (kvs : List (String × Value)) (k : String) (v : Value) :
    List (String × Value) :=
  if kvs.any (fun kv => kv.1 == k) then
    kvs.map (fun kv => if kv.1 == k then (k, v) else kv)
  else
    kvs ++ [(k, v)]

/-- Python dict read `d.get(k)`: the value at the first matching key. -/
def dictGet : List (String × Value) → String → Option Value
  | [], _ => none
  | kv :: kvs, k => if kv.1 == k then some kv.2 else dictGet kvs k

/-- The dictionary produced by `pod_info.to_dict()` for a pod object.
The Kubernetes client guarantees that the top-level key `"metadata"` is
always present and maps to a dict; the model keeps that sub-dict as a
separate field and the remaining top-level entries in `rest`. -/
structure PodObjDict where
  metadata : List (String × Value)
  rest : List (String × Value)
deriving Repr

/-- A raw cluster event as returned by `list_namespaced_event`, with the
four attributes the source reads: `metadata.name`, `message`, `reason`
and `involved_object.name`. -/
structure EventItem where
  metadata_name : String
  message : String
  reason : String
  involved_object_name : String
deriving Repr, DecidableEq

/-- The reduced event shape built by `get_pod_info`:
`{"Name": ..., "Message": ..., "Reason": ...}`. -/
structure EventOut where
  Name : String
  Message : String
  Reason : String
deriving Repr, DecidableEq

/-- The `info` dictionary returned by `get_pod_info`: the key
`"PodInfo"` is always set; `"Events"` and `"Logs"` are set only on the
corresponding branches, which the embedding records as `Option` fields
(`none` = key absent). -/
structure Info where
  PodInfo : PodObjDict
  Events : Option (List EventOut)
  Logs : Option String
deriving Repr

/-- One Kubernetes API call, recorded with its arguments in source
argument order. -/
inductive ClusterCall where
  | listNamespaces : ClusterCall
  | listPods (ns : String) : ClusterCall
  | readPod (pod ns : String) : ClusterCall
  | listEvents (ns : String) : ClusterCall
  | readLog (pod ns : String) : ClusterCall
deriving Repr, DecidableEq

/-- The Cluster Reader collaborator (`client.CoreV1Api()`), modelled as
a record of pure response functions: the value a given call would
return. -/
structure ClusterReader where
  namespace_names : List String
  pod_names : String → List String
  read_namespaced_pod : String → String → PodObjDict
  list_namespaced_event : String → List EventItem
  read_namespaced_pod_log : String → String → String

/-- `list_namespaces()` (src/app.py:9-18): the namespace names plus the
trace of the one cluster call made. -/
def list_namespaces (v1 : ClusterReader) : List String × List ClusterCall :=
  (v1.namespace_names, [ClusterCall.listNamespaces])

/-- `list_pods(namespace)` (src/app.py:20-32): the pod names in the
namespace plus the trace of the one cluster call made. -/
def list_pods (v1 : ClusterReader) (ns : String) :
    List String × List ClusterCall :=
  (v1.pod_names ns, [ClusterCall.listPods ns])

/-- `get_pod_info(namespace, pod, include_events, include_logs)`
(src/app.py:34-70), returning the info dictionary together with the
trace of cluster calls in the order they are issued. -/
def get_pod_info (v1 : ClusterReader) (ns pod : String)
    (include_events include_logs : Bool) : Info × List ClusterCall :=
  let pod_info := v1.read_namespaced_pod pod ns
  let pod_info_map : PodObjDict :=
    { pod_info with
      metadata := dictSet pod_info.metadata "managed_fields" Value.vnull }
  let info : Info := { PodInfo := pod_info_map, Events := none, Logs := none }
  let calls : List ClusterCall := [ClusterCall.readPod pod ns]
  let step1 : Info × List ClusterCall :=
    if include_events then
      ({ info with
         Events := some
           (((v1.list_namespaced_event ns).filter
               (fun e => e.involved_object_name == pod)).map
             (fun e =>
               { Name := e.metadata_name
                 Message := e.message
                 Reason := e.reason })) },
       calls ++ [ClusterCall.listEvents ns])
    else (info, calls)
  let step2 : Info × List ClusterCall :=
    if include_logs then
      ({ step1.1 with Logs := some (v1.read_namespaced_pod_log pod ns) },
       step1.2 ++ [ClusterCall.readLog pod ns])
    else step1
  step2

mutual
/-- Model of `yaml.dump` on one value: `None` renders as `null`, a
scalar as itself, a nested dict as its entries. -/
def dumpValue : Value → String
  | Value.vnull => "null"
  | Value.vstr s => s
  | Value.vmap kvs => dumpEntries kvs

/-- Model of `yaml.dump` on the entries of a dict: one `key: value`
line per entry. -/
def dumpEntries : List (String × Value) → String
  | [] => ""
  | (k, v) :: kvs => k ++ ": " ++ dumpValue v ++ "\n" ++ dumpEntries kvs
end

/-- Model of `yaml.dump(info["PodInfo"])`: the pod dict rendered with
its `metadata` sub-dict and remaining entries. -/
def yamlDumpPod (p : PodObjDict) : String :=
  dumpEntries (("metadata", Value.vmap p.metadata) :: p.rest)

/-- The line `create_prompt` appends for one event:
`f"Event: {event['Name']}, Reason: {event['Reason']}, Message: {event['Message']}\n"`. -/
def eventLine (e : EventOut) : String :=
  "Event: " ++ e.Name ++ ", Reason: " ++ e.Reason ++ ", Message: " ++
    e.Message ++ "\n"

/-- `create_prompt(msg, info)` (src/app.py:73-93).  The truthiness
tests `info.get("Events")` and `info.get("Logs")` are false for an
absent key, an empty list and an empty string. -/
def create_prompt (msg : String) (info : Info) : String :=
  let prompt := msg ++ "\n"
  let prompt := prompt ++ "Pod Info: \n " ++ yamlDumpPod info.PodInfo ++ " \n"
  let prompt :=
    match info.Events with
    | some evs =>
      if evs.isEmpty then prompt
      else
        prompt ++ "Here are the last few events for the pod: \n" ++
          String.join (evs.map eventLine)
    | none => prompt
  let prompt :=
    match info.Logs with
    | some l =>
      if l = "" then prompt
      else prompt ++ "Here are the last few logs for the pod: \n" ++ l
    | none => prompt
  prompt

/-- The fixed system instruction passed to the Completion Service
(src/app.py:116). -/
def systemInstruction : String :=
  "You are a kubernetes expert, and will help the user with request below based on the context and info provided"

/-- The Completion Service collaborator (`openAiClient.chat.completions`):
the answer it would return for a (system instruction, user prompt)
pair. -/
def LLM : Type := String → String → String

/-- `call_llm(msg, namespace, pod, include_events, include_logs)`
(src/app.py:96-120): the model answer, the cluster-call trace, and the
number of Completion Service calls made. -/
def call_llm (v1 : ClusterReader) (llm : LLM) (msg ns pod : String)
    (include_events include_logs : Bool) :
    String × List ClusterCall × Nat :=
  let r := get_pod_info v1 ns pod include_events include_logs
  let prompt := create_prompt msg r.1
  (llm systemInstruction prompt, r.2, 1)

/-- A `gr.Dropdown` widget's data: its choice list and its currently
selected value (`none` = nothing selected). -/
structure Dropdown where
  choices : List String
  value : Option String
deriving Repr, DecidableEq

/-- The constructor call `gr.Dropdown(choices=pods)`: a dropdown with
the given choices and the default `value=None`, i.e. no selection. -/
def grDropdown (choices : List String) : Dropdown :=
  { choices := choices, value := none }

/-- `namespace_change(value)` (src/app.py:122-133): the fresh pod
dropdown plus the trace of the one cluster call made. -/
def namespace_change (v1 : ClusterReader) (value : String) :
    Dropdown × List ClusterCall :=
  let pods := list_pods v1 value
  (grDropdown pods.1, pods.2)

/-- The interactive selection state: the namespace dropdown's value,
the pod dropdown's choices and value, and the two checkboxes. -/
structure UIState where
  namespaceValue : Option String
  podChoices : List String
  podValue : Option String
  includeEvents : Bool
  includeLogs : Bool
deriving Repr, DecidableEq

/-- The wiring `namespace.change(namespace_change, inputs=namespace,
outputs=pod)` (src/app.py:164): selecting namespace `v` stores `v` in
the namespace dropdown and replaces the pod dropdown with the
`Dropdown` returned by `namespace_change`, installing its choices and
its value. -/
def selectNamespace (v1 : ClusterReader) (s : UIState) (v : String) : UIState :=
  let d := (namespace_change v1 v).1
  { s with
    namespaceValue := some v
    podChoices := d.choices
    podValue := d.value }

/-- Python truthiness of a dropdown / textbox value: `None` and the
empty string are falsy. -/
def pyTruthy (x : Option String) : Bool :=
  match x with
  | none => false
  | some s => s ≠ ""

/-- Python `str(...)` of a bool, as interpolated by an f-string. -/
def pyBoolStr (b : Bool) : String :=
  if b then "True" else "False"

/-- The fixed validation response (src/app.py:170). -/
def validationMessage : String := "Please select a namespace and pod."

/-- `respond(message, chat_history, namespace, pod, include_events,
include_logs)` (src/app.py:168-175): the pair returned to Gradio (new
textbox content, new chat history), plus the cluster-call trace and the
number of Completion Service calls made.  `namespace` and `pod` are the
dropdown values (`none` = unselected); on the valid path they are
necessarily non-empty strings and are unwrapped with `Option.getD`. -/
def respond (v1 : ClusterReader) (llm : LLM) (message : String)
    (chat_history : List (String × String)) (ns pod : Option String)
    (include_events include_logs : Bool) :
    (String × List (String × String)) × List ClusterCall × Nat :=
  if !pyTruthy ns || !pyTruthy pod || message = "" then
    (("",
      chat_history ++
        [(if message = "" then "Error" else message, validationMessage)]),
     [], 0)
  else
    let nsv := ns.getD ""
    let podv := pod.getD ""
    let r := call_llm v1 llm message nsv podv include_events include_logs
    let bot_message := r.1
    let new_message :=
      "Namespace " ++ nsv ++ ", Pod: " ++ podv ++ ", Include Events: " ++
        pyBoolStr include_events ++ ", Include Logs: " ++
        pyBoolStr include_logs ++ " \n " ++ message
    (("", chat_history ++ [(new_message, bot_message)]), r.2)

/-! ### Derived section views of `create_prompt`

The composed prompt factors into four consecutive pieces; the three
section definitions below name the pieces so that "emits the section"
can be stated precisely.  They are proved equal to `create_prompt`'s
output in `create_prompt_eq_sections`. -/

/-- The pod-info section of the prompt (always emitted). -/
def podInfoSection (info : Info) : String :=
  "Pod Info: \n " ++ yamlDumpPod info.PodInfo ++ " \n"

/-- The events section of the prompt: header plus one line per event
when `info.get("Events")` is truthy, otherwise the empty string. -/
def eventsSection (info : Info) : String :=
  match info.Events with
  | some evs =>
    if evs.isEmpty then ""
    else
      "Here are the last few events for the pod: \n" ++
        String.join (evs.map eventLine)
  | none => ""

/-- The logs section of the prompt: header plus the raw log text when
`info.get("Logs")` is truthy, otherwise the empty string. -/
def logsSection (info : Info) : String :=
  match info.Logs with
  | some l =>
    if l = "" then ""
    else "Here are the last few logs for the pod: \n" ++ l
  | none => ""

/-- The key set of the `info` dictionary returned by `get_pod_info`:
`"PodInfo"` plus the optional keys that were actually set. -/
def Info.keys (i : Info) : List String :=
  ["PodInfo"] ++ (if i.Events.isSome then ["Events"] else []) ++
    (if i.Logs.isSome then ["Logs"] else [])

/-! ### Concrete fixtures used by counterexamples and witnesses -/

/-- A concrete pod dictionary whose metadata carries a managed-fields
provenance blob, as the live cluster returns it. -/
def podObj0 : PodObjDict :=
  { metadata :=
      [("name", Value.vstr "web-1"),
       ("managed_fields", Value.vmap [("manager", Value.vstr "kubectl")])],
    rest := [("status", Value.vmap [("phase", Value.vstr "Running")])] }

/-- A concrete Cluster Reader: one namespace, one pod, three events of
which two involve the pod `web-1`, empty logs. -/
def reader0 : ClusterReader :=
  { namespace_names := ["default"],
    pod_names := fun _ => ["web-1"],
    read_namespaced_pod := fun _ _ => podObj0,
    list_namespaced_event := fun _ =>
      [{ metadata_name := "ev1", message := "assigned to node1",
         reason := "Scheduled", involved_object_name := "web-1" },
       { metadata_name := "evX", message := "other",
         reason := "Other", involved_object_name := "db-0" },
       { metadata_name := "ev2", message := "image pulled",
         reason := "Pulled", involved_object_name := "web-1" }],
    read_namespaced_pod_log := fun _ _ => "" }

/-- A concrete Completion Service that answers a fixed string. -/
def llm0 : LLM := fun _ _ => "the pod looks healthy"

/-- The first event of `reader0`, which involves the pod `web-1`. -/
def ev1item : EventItem :=
  { metadata_name := "ev1", message := "assigned to node1",
    reason := "Scheduled", involved_object_name := "web-1" }

/-- A concrete info dictionary whose `"Logs"` key is present but holds
the empty string. -/
def infoEmptyLogs : Info :=
  { PodInfo := podObj0, Events := none, Logs := some "" }

/-- A concrete info dictionary with both optional sections present and
non-empty. -/
def infoFull : Info :=
  { PodInfo := podObj0,
    Events := some
      [{ Name := "ev1", Message := "assigned to node1", Reason := "Scheduled" },
       { Name := "ev2", Message := "image pulled", Reason := "Pulled" }],
    Logs := some "log line 1" }

/-! ### Helper lemmas -/

theorem dictGet_append_right (kvs : List (String × Value)) (k : String)
    (v : Value) (h : kvs.any (fun kv => kv.1 == k) = false) :
    dictGet (kvs ++ [(k, v)]) k = some v := by
  induction kvs with
  | nil => simp [dictGet]
  | cons hd tl ih =>
    simp only [List.any_cons, Bool.or_eq_false_iff] at h
    simp only [List.cons_append, dictGet, h.1, Bool.false_eq_true, ite_false]
    exact ih h.2

theorem dictGet_map_update (kvs : List (String × Value)) (k : String)
    (v : Value) (h : kvs.any (fun kv => kv.1 == k) = true) :
    dictGet (kvs.map (fun kv => if kv.1 == k then (k, v) else kv)) k =
      some v := by
  induction kvs with
  | nil => simp at h
  | cons hd tl ih =>
    simp only [List.any_cons, Bool.or_eq_true] at h
    by_cases hk : (hd.1 == k) = true
    · simp [dictGet, hk]
    · have hk' : (hd.1 == k) = false := Bool.of_not_eq_true hk
      have h' : (tl.any fun kv => kv.1 == k) = true := by
        rcases h with h | h
        · exact absurd h hk
        · exact h
      simpa [dictGet, hk'] using ih h'

/-- Python's `d["managed_fields"] = None` always leaves the key mapped
to `None`, whether it existed before or not. -/
theorem dictGet_dictSet (kvs : List (String × Value)) (k : String)
    (v : Value) : dictGet (dictSet kvs k v) k = some v := by
  unfold dictSet
  by_cases h : kvs.any (fun kv => kv.1 == k) = true
  · rw [if_pos h]
    exact dictGet_map_update kvs k v h
  · rw [if_neg h]
    exact dictGet_append_right kvs k v (Bool.of_not_eq_true h)

theorem dictGet_mem_keys (kvs : List (String × Value)) (k : String)
    (v : Value) (h : dictGet kvs k = some v) : k ∈ kvs.map Prod.fst := by
  induction kvs with
  | nil => simp [dictGet] at h
  | cons hd tl ih =>
    by_cases hk : (hd.1 == k) = true
    · simp only [List.map_cons, List.mem_cons]
      exact Or.inl (beq_iff_eq.mp hk).symm
    · have hk' : (hd.1 == k) = false := Bool.of_not_eq_true hk
      simp only [dictGet, hk', Bool.false_eq_true, ite_false] at h
      simp only [List.map_cons, List.mem_cons]
      exact Or.inr (ih h)

theorem append_ne_empty_left (a b : String) (h : a ≠ "") : a ++ b ≠ "" := by
  intro hab
  apply h
  have hd := congrArg String.data hab
  rw [String.data_append] at hd
  exact String.ext (List.append_eq_nil.mp hd).1

theorem data_empty_str : ("" : String).data = [] := rfl

/-- The composed prompt is exactly the user message, a line break, and
the three sections in order. -/
theorem create_prompt_eq_sections (msg : String) (info : Info) :
    create_prompt msg info =
      msg ++ "\n" ++ podInfoSection info ++ eventsSection info ++
        logsSection info := by
  unfold create_prompt podInfoSection eventsSection logsSection
  cases hE : info.Events with
  | none =>
    cases hL : info.Logs with
    | none =>
      refine String.ext ?_
      simp [String.data_append, data_empty_str]
    | some l =>
      by_cases hl : l = "" <;>
        · refine String.ext ?_
          simp [hl, String.data_append, data_empty_str]
  | some evs =>
    cases hL : info.Logs with
    | none =>
      by_cases he : evs.isEmpty <;>
        · refine String.ext ?_
          simp [he, String.data_append, data_empty_str]
    | some l =>
      by_cases he : evs.isEmpty <;> by_cases hl : l = "" <;>
        · refine String.ext ?_
          simp [he, hl, String.data_append, data_empty_str]

/-! ### Claim theorems -/

/-- Claim C1, counterexample: the claim says the returned PodDetail
does not include the managed-fields field and that no rendering
contains it, but on a concrete input the key `managed_fields` is still
among the metadata keys of the returned detail, and the composed prompt
(the rendering of the returned detail) contains the text
`managed_fields`. -/
theorem C1_managed_fields_key_remains :
    "managed_fields" ∈
      ((get_pod_info reader0 "default" "web-1" false false).1.PodInfo.metadata).map
        Prod.fst ∧
    "managed_fields".data <:+:
      (create_prompt "hi" (get_pod_info reader0 "default" "web-1" false false).1).data := by
  constructor
  · decide
  · decide

/-- Claim C1, amended: for every namespace, pod and option pair,
`get_pod_info` replaces the managed-fields value with `None` rather
than removing the key — the returned PodDetail's metadata always maps
`managed_fields` to null, and the key itself remains present. -/
theorem C1_managed_fields_nulled (v1 : ClusterReader) (ns pod : String)
    (ie il : Bool) :
    dictGet (get_pod_info v1 ns pod ie il).1.PodInfo.metadata
        "managed_fields" = some Value.vnull ∧
    "managed_fields" ∈
      ((get_pod_info v1 ns pod ie il).1.PodInfo.metadata).map Prod.fst := by
  have h : (get_pod_info v1 ns pod ie il).1.PodInfo.metadata =
      dictSet (v1.read_namespaced_pod pod ns).metadata "managed_fields"
        Value.vnull := by
    cases ie <;> cases il <;> rfl
  rw [h]
  exact ⟨dictGet_dictSet _ _ _,
    dictGet_mem_keys _ _ _ (dictGet_dictSet _ _ _)⟩

/-- Claim C2: selecting a namespace, from any prior state, clears the
selected pod (the pod dropdown's value becomes unset) and replaces the
pod choices with the freshly fetched pod list scoped to the new
namespace. -/
theorem C2_namespace_change_clears_pod (v1 : ClusterReader) (s : UIState)
    (v : String) :
    (selectNamespace v1 s v).podValue = none ∧
    (selectNamespace v1 s v).podChoices = (list_pods v1 v).1 ∧
    (selectNamespace v1 s v).namespaceValue = some v :=
  ⟨rfl, rfl, rfl⟩

/-- Claim C3, counterexample: the claim says a bundle whose logs are
present even as empty text gets a logs section, but on a concrete info
dictionary whose `"Logs"` key holds the empty string the composed
prompt has no logs section at all. -/
theorem C3_empty_logs_no_section :
    infoEmptyLogs.Logs.isSome = true ∧
    logsSection infoEmptyLogs = "" ∧
    create_prompt "hi" infoEmptyLogs =
      "hi" ++ "\n" ++ podInfoSection infoEmptyLogs := by
  refine ⟨rfl, rfl, ?_⟩
  decide

/-- Claim C3, amended: `create_prompt` emits the events section iff the
bundle's events are present and non-empty, and emits the logs section
iff the bundle's logs are present and non-empty — a present-but-empty
log text yields no logs section, and a section absent from the bundle
is never emitted empty. -/
theorem C3_sections_present_iff (msg : String) (info : Info) :
    create_prompt msg info =
      msg ++ "\n" ++ podInfoSection info ++ eventsSection info ++
        logsSection info ∧
    (eventsSection info ≠ "" ↔ ∃ evs, info.Events = some evs ∧ evs ≠ []) ∧
    (logsSection info ≠ "" ↔ ∃ l, info.Logs = some l ∧ l ≠ "") := by
  refine ⟨create_prompt_eq_sections msg info, ?_, ?_⟩
  · constructor
    · intro hne
      cases hE : info.Events with
      | none => exact absurd (by simp [eventsSection, hE]) hne
      | some evs =>
        refine ⟨evs, rfl, ?_⟩
        intro hnil
        exact hne (by simp [eventsSection, hE, hnil])
    · rintro ⟨evs, hE, hne⟩
      have h0 : evs.isEmpty = false := by
        cases evs with
        | nil => exact absurd rfl hne
        | cons a l => rfl
      simp only [eventsSection, hE, h0, Bool.false_eq_true, ite_false]
      exact append_ne_empty_left _ _ (by decide)
  · constructor
    · intro hne
      cases hL : info.Logs with
      | none => exact absurd (by simp [logsSection, hL]) hne
      | some l =>
        refine ⟨l, rfl, ?_⟩
        intro hempty
        exact hne (by simp [logsSection, hL, hempty])
    · rintro ⟨l, hL, hne⟩
      simp only [logsSection, hL, hne, ite_false]
      exact append_ne_empty_left _ _ (by decide)

/-- Claim C3 witness: on a concrete bundle with two events and a
non-empty log text, both sections are emitted and the prompt factors
into the four pieces. -/
theorem C3_sections_present_iff_witness :
    eventsSection infoFull ≠ "" ∧ logsSection infoFull ≠ "" ∧
    create_prompt "q" infoFull =
      "q" ++ "\n" ++ podInfoSection infoFull ++ eventsSection infoFull ++
        logsSection infoFull := by
  refine ⟨?_, ?_, (C3_sections_present_iff "q" infoFull).1⟩
  · exact (C3_sections_present_iff "q" infoFull).2.1.mpr
      ⟨_, rfl, by decide⟩
  · exact (C3_sections_present_iff "q" infoFull).2.2.mpr
      ⟨_, rfl, by decide⟩

/-- Claim C4: submitting while the namespace or pod is unselected or
with an empty message appends exactly one chat turn whose response is
the fixed validation message and whose displayed request is the
original message (or the placeholder `Error` when the message is
empty), clears the textbox, makes zero Cluster Reader calls and zero
Completion Service calls, and returns normally. -/
theorem C4_validation_turn (v1 : ClusterReader) (llm : LLM)
    (message : String) (history : List (String × String))
    (ns pod : Option String) (ie il : Bool)
    (h : pyTruthy ns = false ∨ pyTruthy pod = false ∨ message = "") :
    respond v1 llm message history ns pod ie il =
      (("", history ++
          [(if message = "" then "Error" else message, validationMessage)]),
       [], 0) := by
  unfold respond
  rcases h with h | h | h
  · simp [h]
  · simp [h]
  · subst h
    simp

/-- Claim C4 witness: submitting `help` with no namespace selected
yields exactly the validation turn and no external calls. -/
theorem C4_validation_turn_witness :
    respond reader0 llm0 "help" [] none (some "web-1") true false =
      (("", [("help", validationMessage)]), [], 0) := by
  rw [C4_validation_turn reader0 llm0 "help" [] none (some "web-1") true
    false (Or.inl rfl)]
  decide

/-- Claim C5: `create_prompt` is a pure, deterministic function of its
two inputs — identical (message, bundle) inputs always yield an
identical string. -/
theorem C5_create_prompt_deterministic (msg1 msg2 : String)
    (info1 info2 : Info) (hm : msg1 = msg2) (hi : info1 = info2) :
    create_prompt msg1 info1 = create_prompt msg2 info2 := by
  rw [hm, hi]

/-- Claim C5 witness: two runs of `create_prompt` on the same concrete
input yield the same string. -/
theorem C5_create_prompt_deterministic_witness :
    create_prompt "q" infoFull = create_prompt "q" infoFull :=
  C5_create_prompt_deterministic "q" "q" infoFull infoFull rfl rfl

/-- Claim C6: when events are requested, the bundle's events are
exactly the namespace's events whose involved-object name equals the
requested pod, in Cluster-Reader order (the matching sub-sequence of
the returned event list), each reduced to the Name/Message/Reason
shape. -/
theorem C6_events_exactly_filtered (v1 : ClusterReader) (ns pod : String)
    (il : Bool) :
    (get_pod_info v1 ns pod true il).1.Events =
      some (((v1.list_namespaced_event ns).filter
          (fun e => e.involved_object_name == pod)).map
        (fun e => { Name := e.metadata_name, Message := e.message,
                    Reason := e.reason })) ∧
    List.Sublist
      ((v1.list_namespaced_event ns).filter
        (fun e => e.involved_object_name == pod))
      (v1.list_namespaced_event ns) ∧
    ∀ e ∈ (v1.list_namespaced_event ns).filter
        (fun e => e.involved_object_name == pod),
      e.involved_object_name = pod := by
  refine ⟨?_, List.filter_sublist _, ?_⟩
  · cases il <;> rfl
  · intro e he
    exact beq_iff_eq.mp (List.mem_filter.mp he).2

/-- Claim C6 witness: on the concrete reader, exactly the two `web-1`
events survive, in order, and the first surviving raw event involves
the pod. -/
theorem C6_events_exactly_filtered_witness :
    (get_pod_info reader0 "default" "web-1" true false).1.Events =
      some [{ Name := "ev1", Message := "assigned to node1",
              Reason := "Scheduled" },
            { Name := "ev2", Message := "image pulled",
              Reason := "Pulled" }] ∧
    ev1item.involved_object_name = "web-1" := by
  obtain ⟨h1, _, h3⟩ :=
    C6_events_exactly_filtered reader0 "default" "web-1" false
  exact ⟨h1.trans (by decide), h3 ev1item (by decide)⟩

/-- Claim C7: the composed prompt presents its pieces in the fixed
order message, line break, pod-info section, events section (when
emitted: header plus one `Event: name, Reason: reason, Message:
message` line per event in bundle order), logs section (when emitted:
header plus the raw log text unmodified). -/
theorem C7_section_order (msg : String) (info : Info) :
    create_prompt msg info =
      msg ++ "\n" ++ podInfoSection info ++ eventsSection info ++
        logsSection info ∧
    (∀ evs, info.Events = some evs → evs ≠ [] →
      eventsSection info =
        "Here are the last few events for the pod: \n" ++
          String.join (evs.map eventLine)) ∧
    (∀ l, info.Logs = some l → l ≠ "" →
      logsSection info = "Here are the last few logs for the pod: \n" ++ l) := by
  refine ⟨create_prompt_eq_sections msg info, ?_, ?_⟩
  · intro evs hE hne
    have h0 : evs.isEmpty = false := by
      cases evs with
      | nil => exact absurd rfl hne
      | cons a l => rfl
    simp [eventsSection, hE, h0]
  · intro l hL hne
    simp [logsSection, hL, hne]

/-- Claim C7 witness: on a concrete bundle with two events and a log
text, the prompt factors in order and both optional sections have the
specified shape. -/
theorem C7_section_order_witness :
    create_prompt "q" infoFull =
      "q" ++ "\n" ++ podInfoSection infoFull ++ eventsSection infoFull ++
        logsSection infoFull ∧
    eventsSection infoFull =
      "Here are the last few events for the pod: \n" ++
        String.join
          ([{ Name := "ev1", Message := "assigned to node1",
              Reason := "Scheduled" },
            { Name := "ev2", Message := "image pulled",
              Reason := "Pulled" }].map eventLine) ∧
    logsSection infoFull =
      "Here are the last few logs for the pod: \n" ++ "log line 1" := by
  obtain ⟨h1, h2, h3⟩ := C7_section_order "q" infoFull
  exact ⟨h1, h2 _ rfl (by decide), h3 _ rfl (by decide)⟩

/-- Claim C8: the bundle always contains the pod detail, contains an
events entry iff events were requested, and contains a logs entry iff
logs were requested. -/
theorem C8_bundle_keys (v1 : ClusterReader) (ns pod : String)
    (ie il : Bool) :
    "PodInfo" ∈ ((get_pod_info v1 ns pod ie il).1).keys ∧
    ("Events" ∈ ((get_pod_info v1 ns pod ie il).1).keys ↔ ie = true) ∧
    ("Logs" ∈ ((get_pod_info v1 ns pod ie il).1).keys ↔ il = true) := by
  cases ie <;> cases il <;> simp [get_pod_info, Info.keys]

/-- Claim C8 witness: with events requested and logs not requested, the
bundle has the PodInfo and Events keys and no Logs key. -/
theorem C8_bundle_keys_witness :
    "PodInfo" ∈ ((get_pod_info reader0 "default" "web-1" true false).1).keys ∧
    "Events" ∈ ((get_pod_info reader0 "default" "web-1" true false).1).keys ∧
    "Logs" ∉ ((get_pod_info reader0 "default" "web-1" true false).1).keys := by
  obtain ⟨h1, h2, h3⟩ := C8_bundle_keys reader0 "default" "web-1" true false
  exact ⟨h1, h2.mpr rfl, fun hm => absurd (h3.mp hm) (by decide)⟩

/-- Claim C9: `get_pod_info` performs exactly one pod-detail read, plus
exactly one events listing iff events were requested, plus exactly one
log read iff logs were requested — in that order, with no other
Cluster Reader calls and no retries. -/
theorem C9_cluster_call_trace (v1 : ClusterReader) (ns pod : String)
    (ie il : Bool) :
    (get_pod_info v1 ns pod ie il).2 =
      [ClusterCall.readPod pod ns] ++
        (if ie then [ClusterCall.listEvents ns] else []) ++
        (if il then [ClusterCall.readLog pod ns] else []) := by
  cases ie <;> cases il <;> rfl

/-- Claim C10: every submission returns the empty string as the new
textbox content, and on the validation path with an empty message the
displayed request recorded in history is the placeholder `Error`. -/
theorem C10_clears_textbox (v1 : ClusterReader) (llm : LLM)
    (message : String) (history : List (String × String))
    (ns pod : Option String) (ie il : Bool) :
    (respond v1 llm message history ns pod ie il).1.1 = "" ∧
    (message = "" →
      (respond v1 llm message history ns pod ie il).1.2 =
        history ++ [("Error", validationMessage)]) := by
  constructor
  · unfold respond
    split
    · rfl
    · rfl
  · intro hm
    subst hm
    simp [respond]

/-- Claim C10 witness: an empty submission with both selections made
clears the textbox and records the `Error` placeholder turn. -/
theorem C10_clears_textbox_witness :
    (respond reader0 llm0 "" [] (some "default") (some "web-1") false
      false).1.1 = "" ∧
    (respond reader0 llm0 "" [] (some "default") (some "web-1") false
      false).1.2 = [("Error", validationMessage)] := by
  obtain ⟨h1, h2⟩ :=
    C10_clears_textbox reader0 llm0 "" [] (some "default") (some "web-1")
      false false
  exact ⟨h1, by simpa using h2 rfl⟩

end PodDoctor
